import Mathlib

/-!
Verification development for the paperfetcher web app
(`src/paperfetcher_app.py`).

Python strings are embedded as lists of characters (`PyStr`), so that the
string operations the app uses — `in`, `split(",")`, `strip()`, `join` —
become executable list functions that can be reasoned about directly.
Remote calls (Crossref dry runs and fetches, snowball chases) are
parameters ("oracles") of the embedded handlers; a `SearchError` raised by
the library is an `Except.error` result of the oracle.
-/

/-- A Python string, embedded as its list of characters. -/
abbrev PyStr := List Char

deriving instance DecidableEq for Except

/-- Python `c in s` for a single-character needle. -/
def py_contains (s : PyStr) (c : Char) : Bool := decide (c ∈ s)

/-- Python `s.split(sep)` for a single-character separator: splits on every
occurrence of the separator, keeping empty fragments. -/
def py_split (sep : Char) : PyStr → List PyStr
  | [] => [[]]
  | c :: rest =>
    match py_split sep rest with
    | [] => [[]]
    | h :: t => if c = sep then [] :: h :: t else (c :: h) :: t

/-- Python `s.strip()`: drops whitespace from both ends. -/
def py_strip (s : PyStr) : PyStr :=
  ((s.dropWhile Char.isWhitespace).reverse.dropWhile Char.isWhitespace).reverse

/-- Everything after the first comma of a string (empty when there is no
comma); used to state what claim C9 calls "the text after the first comma". -/
def after_first_comma (s : PyStr) : PyStr :=
  (s.dropWhile (fun c => c != ',')).drop 1

/-! Section: Data model

The paperfetcher library (imported by the app, not part of this
repository) supplies records, datasets and search objects.  They are
modelled here from the spec, with only the structure the app observes. -/

/-- Modelled from the spec: a normalized unit of bibliographic metadata.
Only the identifier is observed by the app code, so the other optional
fields are not carried. -/
structure Record where
  id : PyStr
deriving DecidableEq, Repr

/-- Modelled from the spec: an ordered container of Records.  The app
stores either a DOI dataset (from `get_DOIDataset`) or an RIS dataset
(from `get_RISDataset`); the constructor records which serialization the
dataset supports. -/
inductive Dataset where
  | doi (records : List Record)
  | ris (records : List Record)
deriving DecidableEq, Repr

/-- The ordered record sequence of a dataset. -/
def Dataset.records : Dataset → List Record
  | .doi rs => rs
  | .ris rs => rs

/-- Modelled from the spec: the merge operation `extend_dataset` appends
the records of the other Dataset after the receiver, preserving the
relative order of both inputs and performing no deduplication
(spec section 3, Dataset `Extend`). -/
def Dataset.extend_dataset : Dataset → Dataset → Dataset
  | .doi a, d => .doi (a ++ d.records)
  | .ris a, d => .ris (a ++ d.records)

/-- Modelled from the spec: identifier-list export, one identifier per
line in Dataset order with no deduplication (spec section 4.5).  Raises —
returns `none` — on a dataset that is not a DOI dataset, which is how the
display section of the app detects a format mismatch. -/
def Dataset.to_txt_string : Dataset → Option PyStr
  | .doi rs => some (List.intercalate ("\n".data) (rs.map Record.id))
  | .ris _ => none

/-- Modelled from the spec: bibliographic-interchange export, one
tag-value entry per Record with a blank line between entries (spec
sections 4.5 and 6); the entry body is abstracted to the identifier tag.
Raises — returns `none` — on a dataset that is not an RIS dataset. -/
def Dataset.to_ris_string : Dataset → Option PyStr
  | .ris rs =>
      some (List.intercalate ("\n\n".data)
        (rs.map (fun r => ("DO  - ".data) ++ r.id ++ ("\nER  - ".data))))
  | .doi _ => none

/-- A handsearch search object (`handsearch.CrossrefSearch` after it has
been called): the container identifier it was built from and the records
it fetched.  Keywords and the date range are fixed for a whole handler
run, so they live in the fetch oracle, not here. -/
structure HSearch where
  issn : PyStr
  records : List Record
deriving DecidableEq, Repr

/-- Modelled from the spec: `get_DOIDataset` derives a DOI dataset from
the records already fetched by the search object, without network. -/
def HSearch.get_DOIDataset (s : HSearch) : Dataset := .doi s.records

/-- Modelled from the spec: `get_RISDataset` derives an RIS dataset (with
the abstract as a declared extra field) from the records already fetched
by the search object, without network. -/
def HSearch.get_RISDataset (s : HSearch) : Dataset := .ris s.records

/-! Section: Parsing helpers of the app (source translations) -/

/-- Lines 264-268 and 292-296 of `paperfetcher_app.py`: the identifier
submitted to the library for one entry of the selected-journals list.
Python `issn_val.split(",")[1].strip()` — when a comma is present the
split has at least two fragments, so the `getD` default is never used. -/
def extract_issn (issn_val : PyStr) : PyStr :=
  if py_contains issn_val ',' then py_strip ((py_split ',' issn_val).getD 1 [])
  else issn_val

/-- Line 156 of `paperfetcher_app.py`: the drop-down entry built for a
journal, `JournalTitle + ", ISSN:" + eissn`. -/
def journal_entry (title eissn : PyStr) : PyStr :=
  title ++ (", ISSN:".data) ++ eissn

/-- Lines 245-248 of `paperfetcher_app.py`: keyword parsing at the press
of the handsearch Search button (`None` for an empty text area, else
`keywords.strip().split(",")`). -/
def parse_keywords (kw : PyStr) : Option (List PyStr) :=
  if kw = [] then none else some (py_split ',' (py_strip kw))

/-- Lines 332-335 of `paperfetcher_app.py`: the keyword line of the
handsearch report (`",".join(keywords)` or the string `None`). -/
def report_keywords : Option (List PyStr) → PyStr
  | some ks => List.intercalate (",".data) ks
  | none => ("None".data)

/-- Lines 407-410 of `paperfetcher_app.py`: the seed list of a citation
search.  With a comma the fragments are stripped; without one the raw,
unstripped text becomes the single seed. -/
def parse_dois (dois : PyStr) : List PyStr :=
  if py_contains dois ',' then (py_split ',' dois).map py_strip
  else [dois]

/-! Section: Dataset preparation (lines 67-88 of `paperfetcher_app.py`) -/

/-- The accumulation loop shared by `prepare_handsearch_doi_dataset` and
`prepare_handsearch_ris_dataset`: `results` starts as `None`, the first
search object initializes it and every later one is merged in with
`extend_dataset`. -/
def prepare_loop (get : HSearch → Dataset) :
    Option Dataset → List HSearch → Option Dataset
  | results, [] => results
  | none, s :: rest => prepare_loop get (some (get s)) rest
  | some r, s :: rest => prepare_loop get (some (r.extend_dataset (get s))) rest

/-- Lines 67-74 of `paperfetcher_app.py`. -/
def prepare_handsearch_doi_dataset (search_objs : List HSearch) : Option Dataset :=
  prepare_loop HSearch.get_DOIDataset none search_objs

/-- Lines 77-88 of `paperfetcher_app.py` (the extra abstract field passed
to `get_RISDataset` is part of the modelled RIS derivation). -/
def prepare_handsearch_ris_dataset (search_objs : List HSearch) : Option Dataset :=
  prepare_loop HSearch.get_RISDataset none search_objs

/-! Section: Handsearch handler (lines 243-356 of `paperfetcher_app.py`) -/

/-- Output format radio button (lines 233-238). -/
inductive OutFormat where
  | doiTxt
  | ris
deriving DecidableEq, Repr

/-- Result of the estimating loop, lines 264-277: the summed expected
size, the error messages shown for containers whose dry run failed, and
the trace of identifiers submitted to `dry_run` (one per loop pass). -/
structure EstimatePhase where
  expected : Nat
  errors : List PyStr
  requests : List PyStr
deriving DecidableEq, Repr

/-- Lines 264-277 of `paperfetcher_app.py`: one `CrossrefSearch` plus
`dry_run` per entry of the selected-journals list; a `SearchError` is
shown and the loop continues; successes are summed into `expected_size`.
The oracle `dryRun` maps the submitted identifier to the dry-run result
for the ambient keywords and date range. -/
def estimateLoop (dryRun : PyStr → Except PyStr Nat) : List PyStr → EstimatePhase
  | [] => ⟨0, [], []⟩
  | v :: rest =>
    let issn := extract_issn v
    let r := estimateLoop dryRun rest
    match dryRun issn with
    | .ok n => ⟨n + r.expected, r.errors, issn :: r.requests⟩
    | .error e =>
        ⟨r.expected,
         (("Evaluation for ISSN ".data) ++ issn ++ (" failed. Error message: ".data) ++ e) :: r.errors,
         issn :: r.requests⟩

/-- Result of the fetch loop, lines 292-314: the search objects that
succeeded (in submission order), the error messages of the containers
that failed, and the trace of identifiers submitted to the fetch. -/
structure FetchPhase where
  search_objs : List HSearch
  errors : List PyStr
  requests : List PyStr
deriving DecidableEq, Repr

/-- Lines 292-314 of `paperfetcher_app.py`: one `CrossrefSearch` call per
entry of the selected-journals list; on `SearchError` an error is shown
and the loop continues with the remaining containers; on success the
search object is appended.  The oracle `fetch` maps the submitted
identifier to the records fetched for the ambient keywords and dates. -/
def fetchLoop (fetch : PyStr → Except PyStr (List Record)) : List PyStr → FetchPhase
  | [] => ⟨[], [], []⟩
  | v :: rest =>
    let issn := extract_issn v
    let r := fetchLoop fetch rest
    match fetch issn with
    | .ok recs => ⟨⟨issn, recs⟩ :: r.search_objs, r.errors, issn :: r.requests⟩
    | .error e =>
        ⟨r.search_objs,
         (("Search for ISSN ".data) ++ issn ++ (" failed. Error message: ".data) ++ e) :: r.errors,
         issn :: r.requests⟩

/-- The run summary built at lines 337-354: one field per named argument
of the Python format string. -/
structure HandsearchReport where
  search_type : PyStr
  issns : List PyStr
  startd : PyStr
  untild : PyStr
  keywords : PyStr
  count : Nat
deriving DecidableEq, Repr

/-- Outcome of one press of the handsearch Search button.
`noJournals` is the empty-selection error (line 261), `ceilingError` the
resource-limit rejection showing the would-be count and the limit (lines
280-283), `noResultsError` the zero-estimate error (lines 284-285); all
three terminate before any fetch and leave the stored session state
untouched.  `completed` is the fetch branch: search objects, per-container
fetch errors, the stored results dataset (`none` when dataset preparation
produced `None`) and the report (`none` models the `TypeError` that
`len(None)` raises at line 354 when there is no results dataset). -/
inductive HandsearchOutcome where
  | noJournals
  | ceilingError (expected : Nat) (limit : Nat)
  | noResultsError
  | completed (search_objs : List HSearch) (fetch_errors : List PyStr)
      (results : Option Dataset) (report : Option HandsearchReport)
deriving DecidableEq, Repr

/-- Whether the outcome entered the fetch loop. -/
def HandsearchOutcome.startedFetching : HandsearchOutcome → Bool
  | .completed _ _ _ _ => true
  | _ => false

/-- The stored results dataset of an outcome, when one exists. -/
def HandsearchOutcome.resultsOf : HandsearchOutcome → Option Dataset
  | .completed _ _ r _ => r
  | _ => none

/-- The run summary of an outcome, when one exists. -/
def HandsearchOutcome.reportOf : HandsearchOutcome → Option HandsearchReport
  | .completed _ _ _ rep => rep
  | _ => none

/-- Lines 316-321 of `paperfetcher_app.py`: the results dataset prepared
for the selected output format. -/
def results_for_format (fmt : OutFormat) (objs : List HSearch) : Option Dataset :=
  match fmt with
  | .doiTxt => prepare_handsearch_doi_dataset objs
  | .ris => prepare_handsearch_ris_dataset objs

/-- Lines 243-356 of `paperfetcher_app.py`: the handsearch Search-button
handler.  Empty selection check, estimate loop, resource-ceiling check
(strict `>`, only when a limit is configured), zero-estimate check
(`expected_size < 1`), then the fetch loop, dataset preparation for the
selected output format, and the report. -/
def handsearchHandler (dryRun : PyStr → Except PyStr Nat)
    (fetch : PyStr → Except PyStr (List Record))
    (result_limit : Option Nat) (issn_list : List PyStr)
    (keywords_text startd untild : PyStr) (out_format : OutFormat) :
    HandsearchOutcome :=
  if issn_list.length = 0 then .noJournals
  else
    let keywords := parse_keywords keywords_text
    let expected_size := (estimateLoop dryRun issn_list).expected
    let proceed : HandsearchOutcome :=
      if expected_size < 1 then .noResultsError
      else
        let fp := fetchLoop fetch issn_list
        let results : Option Dataset := results_for_format out_format fp.search_objs
        let report : Option HandsearchReport := results.map (fun ds =>
          { search_type := ("Handsearch".data)
            issns := issn_list
            startd := startd
            untild := untild
            keywords := report_keywords keywords
            count := ds.records.length })
        .completed fp.search_objs fp.errors results report
    match result_limit with
    | some lim => if expected_size > lim then .ceilingError expected_size lim else proceed
    | none => proceed

/-! Section: Citation search (lines 358-466 of `paperfetcher_app.py`) -/

/-- A snowball search object
(`snowballsearch.CrossrefBackwardReferenceSearch` or
`COCIForwardCitationSearch` after it has been called): the seed
identifiers it was built from, the records harvested from the resolvable
seeds, and the per-seed errors of the seeds whose lookup failed. -/
structure SnowballSearch where
  seeds : List PyStr
  records : List Record
  seed_errors : List (PyStr × PyStr)
deriving DecidableEq, Repr

/-- Modelled from the spec: the per-seed chase loop of the snowball
search classes, absent from `src/` (the app only constructs and calls
them).  Spec sections 4.3 and 4.4: seeds are processed independently; a
seed whose lookup fails contributes a per-seed error and is skipped, the
remaining seeds still contribute their records, so the chase never raises
for a per-seed failure.  The oracle `resolve` maps a seed to its related
works (references or citing works). -/
def snowball_chase (resolve : PyStr → Except PyStr (List Record))
    (seeds : List PyStr) : SnowballSearch :=
  { seeds := seeds
    records := seeds.flatMap (fun s =>
      match resolve s with
      | .ok rs => rs
      | .error _ => [])
    seed_errors := seeds.filterMap (fun s =>
      match resolve s with
      | .ok _ => none
      | .error e => some (s, e)) }

/-- Modelled from the spec: `get_DOIDataset` of a snowball search derives
a DOI dataset from the records it harvested, without network. -/
def SnowballSearch.get_DOIDataset (s : SnowballSearch) : Dataset := .doi s.records

/-- Modelled from the spec: `get_RISDataset` of a snowball search derives
an RIS dataset from the records it harvested, without network. -/
def SnowballSearch.get_RISDataset (s : SnowballSearch) : Dataset := .ris s.records

/-- Type of citation search (lines 378-383). -/
inductive SnowballType where
  | backward
  | forward
deriving DecidableEq, Repr

/-- The `types` dictionary of lines 378-379, used for the report. -/
def snowball_type_desc : SnowballType → PyStr
  | .backward => ("Search references (backward reference chasing).".data)
  | .forward => ("Search citing articles (forward citation chasing)".data)

/-- The run summary built at lines 453-464: one field per named argument
of the Python format string. -/
structure CitationReport where
  type_desc : PyStr
  dois : List PyStr
  count : Nat
deriving DecidableEq, Repr

/-- Outcome of one press of the citation-search Search button.  The
handler always runs to the session-state assignments of lines 446-449, so
there is a single shape: the search objects (empty when the chase raised
`SearchError`), the error messages shown, the stored results dataset
(`none` when `search_objs[0]` raised inside the guarded preparation
block) and the report (`none` models the `TypeError` that `len(None)`
raises at line 464 when there is no results dataset). -/
structure CitationResult where
  search_objs : List SnowballSearch
  errors : List PyStr
  results : Option Dataset
  report : Option CitationReport
deriving DecidableEq, Repr

/-- Lines 404-466 of `paperfetcher_app.py`: the citation-search
Search-button handler.  DOI parsing, one chase call for the whole seed
list guarded by `except SearchError`, dataset derivation from
`search_objs[0]` guarded by `except Exception`, session-state update and
report.  The oracles are the two library chase calls. -/
def citationHandler
    (chaseBackward chaseForward : List PyStr → Except PyStr SnowballSearch)
    (snowball_type : SnowballType) (out_format : OutFormat)
    (dois_text : PyStr) : CitationResult :=
  let dois := parse_dois dois_text
  let (search_objs, errors) :=
    match snowball_type with
    | .backward =>
      match chaseBackward dois with
      | .ok s => ([s], ([] : List PyStr))
      | .error e => ([], [("Search failed. Error message: ".data) ++ e])
    | .forward =>
      match chaseForward dois with
      | .ok s => ([s], ([] : List PyStr))
      | .error e => ([], [("Search failed. Error message: ".data) ++ e])
  let results : Option Dataset :=
    match search_objs.head? with
    | none => none
    | some s =>
      match out_format with
      | .doiTxt => some s.get_DOIDataset
      | .ris => some s.get_RISDataset
  let report : Option CitationReport := results.map (fun ds =>
    { type_desc := snowball_type_desc snowball_type
      dois := dois
      count := ds.records.length })
  { search_objs := search_objs, errors := errors, results := results, report := report }

/-- The citation handler run against the spec-modelled snowball library:
both chase calls execute the per-seed loop of `snowball_chase` and never
raise for a per-seed failure. -/
def citation_handler_spec_chase (resolve : PyStr → Except PyStr (List Record))
    (t : SnowballType) (fmt : OutFormat) (txt : PyStr) : CitationResult :=
  citationHandler (fun seeds => Except.ok (snowball_chase resolve seeds))
    (fun seeds => Except.ok (snowball_chase resolve seeds)) t fmt txt

/-! Section: Results display section (lines 472-523 of `paperfetcher_app.py`) -/

/-- The stored `st.session_state.search_objs` together with the stored
`st.session_state.search_type` tag that selects the conversion branch
(`Handsearch` or `Citation search`). -/
inductive StoredSearches where
  | handsearch (objs : List HSearch)
  | citation (objs : List SnowballSearch)
deriving DecidableEq, Repr

/-- What the display section leaves behind: the (possibly rebuilt and
overwritten) stored results dataset and the serialized download
payload. -/
structure DisplayOutcome where
  results : Dataset
  data : PyStr
deriving DecidableEq, Repr

/-- Lines 483-521 of `paperfetcher_app.py`: serialization of the stored
results for download.  The selected format is tried on the stored
dataset; if its serialization method raises, the dataset is rebuilt in
the requested format from the stored search objects, the stored results
are overwritten with the rebuilt dataset, and that is serialized.  The
function takes no fetch or chase oracle: the conversion touches only
stored state.  A `none` outcome models an uncaught exception in this
section (rebuild of an empty object list, or a second serialization
failure). -/
def displayResults (searches : StoredSearches) (results : Dataset)
    (out_format : OutFormat) : Option DisplayOutcome :=
  match out_format with
  | .doiTxt =>
    match results.to_txt_string with
    | some data => some ⟨results, data⟩
    | none =>
      let rebuilt : Option Dataset :=
        match searches with
        | .handsearch objs => prepare_handsearch_doi_dataset objs
        | .citation objs => (objs.head?).map SnowballSearch.get_DOIDataset
      match rebuilt with
      | some r =>
        match r.to_txt_string with
        | some data => some ⟨r, data⟩
        | none => none
      | none => none
  | .ris =>
    match results.to_ris_string with
    | some data => some ⟨results, data⟩
    | none =>
      let rebuilt : Option Dataset :=
        match searches with
        | .handsearch objs => prepare_handsearch_ris_dataset objs
        | .citation objs => (objs.head?).map SnowballSearch.get_RISDataset
      match rebuilt with
      | some r =>
        match r.to_ris_string with
        | some data => some ⟨r, data⟩
        | none => none
      | none => none

/-! Section: Helper lemmas on the string model -/

theorem py_split_ne_nil (sep : Char) (l : PyStr) : py_split sep l ≠ [] := by
  cases l with
  | nil => simp [py_split]
  | cons c rest =>
    unfold py_split
    cases py_split sep rest with
    | nil => simp
    | cons h t =>
      dsimp only
      split <;> simp

theorem py_split_headI (sep : Char) (l : PyStr) :
    (py_split sep l).headI = l.takeWhile (fun c => c != sep) := by
  induction l with
  | nil => rfl
  | cons c rest ih =>
    unfold py_split
    cases hps : py_split sep rest with
    | nil => exact absurd hps (py_split_ne_nil sep rest)
    | cons h t =>
      rw [hps] at ih
      by_cases hc : c = sep
      · subst hc
        simp [List.takeWhile_cons]
      · simp [hc, List.takeWhile_cons, bne_iff_ne, ← ih]

theorem py_split_getD_one (sep : Char) (l : PyStr) :
    (py_split sep l).getD 1 [] =
      ((l.dropWhile (fun c => c != sep)).drop 1).takeWhile (fun c => c != sep) := by
  induction l with
  | nil => rfl
  | cons c rest ih =>
    unfold py_split
    cases hps : py_split sep rest with
    | nil => exact absurd hps (py_split_ne_nil sep rest)
    | cons h t =>
      rw [hps] at ih
      by_cases hc : c = sep
      · subst hc
        have hh := py_split_headI c rest
        rw [hps] at hh
        simpa [List.dropWhile_cons] using hh
      · simpa [hc, List.dropWhile_cons, bne_iff_ne] using ih

/-- Characterization of the ISSN extraction on an entry holding a comma:
the submitted identifier is the whitespace-stripped text between the
first and the second comma of the entry. -/
theorem extract_issn_second_field (v : PyStr) (h : py_contains v ',' = true) :
    extract_issn v =
      py_strip ((after_first_comma v).takeWhile (fun c => c != ',')) := by
  unfold extract_issn
  rw [if_pos h, py_split_getD_one]
  rfl

theorem takeWhile_bne_all {a : PyStr} (ha : (',' : Char) ∉ a) :
    a.takeWhile (fun c => c != ',') = a := by
  induction a with
  | nil => rfl
  | cons c rest ih =>
    have hc : c ≠ ',' := fun e => ha (by simp [e])
    have hr : (',' : Char) ∉ rest := fun m => ha (List.mem_cons_of_mem _ m)
    simp [List.takeWhile_cons, bne_iff_ne, hc, ih hr]

theorem takeWhile_bne_append {a : PyStr} (ha : (',' : Char) ∉ a) (b : PyStr) :
    (a ++ ',' :: b).takeWhile (fun c => c != ',') = a := by
  induction a with
  | nil => simp [List.takeWhile_cons]
  | cons c rest ih =>
    have hc : c ≠ ',' := fun e => ha (by simp [e])
    have hr : (',' : Char) ∉ rest := fun m => ha (List.mem_cons_of_mem _ m)
    simp [List.takeWhile_cons, bne_iff_ne, hc, ih hr]

theorem dropWhile_bne_append {a : PyStr} (ha : (',' : Char) ∉ a) (b : PyStr) :
    (a ++ ',' :: b).dropWhile (fun c => c != ',') = ',' :: b := by
  induction a with
  | nil => simp [List.dropWhile_cons]
  | cons c rest ih =>
    have hc : c ≠ ',' := fun e => ha (by simp [e])
    have hr : (',' : Char) ∉ rest := fun m => ha (List.mem_cons_of_mem _ m)
    simp [List.dropWhile_cons, bne_iff_ne, hc, ih hr]

theorem length_dropWhile_le' {α} (p : α → Bool) (l : List α) :
    (l.dropWhile p).length ≤ l.length := by
  induction l with
  | nil => simp
  | cons x rest ih =>
    rw [List.dropWhile_cons]
    split
    · exact Nat.le_succ_of_le ih
    · simp

theorem dropWhile_append_left {α} (p : α → Bool) (a b : List α)
    (ha : a.dropWhile p = a) (hne : a ≠ []) :
    (a ++ b).dropWhile p = a ++ b := by
  cases a with
  | nil => exact absurd rfl hne
  | cons x a' =>
    have hx : p x = false := by
      by_contra hpx
      have hpx' : p x = true := by simpa using hpx
      rw [List.dropWhile_cons, if_pos hpx'] at ha
      have hlen := congrArg List.length ha
      have := length_dropWhile_le' p a'
      simp at hlen
      omega
    rw [List.cons_append, List.dropWhile_cons, if_neg (by simp [hx])]

/-- Stripping the second fragment of a drop-down entry: the leading space
of `" ISSN:"` goes, and with an eISSN free of trailing whitespace nothing
else does. -/
theorem py_strip_issn_tag (eissn : PyStr)
    (hw : eissn.reverse.dropWhile Char.isWhitespace = eissn.reverse) :
    py_strip ((" ISSN:".data) ++ eissn) = ("ISSN:".data) ++ eissn := by
  unfold py_strip
  have h1 : ((" ISSN:".data) ++ eissn).dropWhile Char.isWhitespace =
      ("ISSN:".data) ++ eissn := by
    rw [show (" ISSN:".data) ++ eissn = ' ' :: (("ISSN:".data) ++ eissn) from rfl]
    rw [List.dropWhile_cons, if_pos (by decide)]
    rw [show ("ISSN:".data) ++ eissn = 'I' :: (("SSN:".data) ++ eissn) from rfl]
    rw [List.dropWhile_cons, if_neg (by decide)]
  rw [h1, List.reverse_append]
  cases heq : eissn.reverse with
  | nil =>
    have : eissn = [] := by simpa using congrArg List.reverse heq
    subst this
    decide
  | cons x xs =>
    rw [← heq, dropWhile_append_left _ _ _ hw (by simp [heq])]
    rw [List.reverse_append, List.reverse_reverse, List.reverse_reverse]

theorem py_contains_of_mem {s : PyStr} {c : Char} (h : c ∈ s) :
    py_contains s c = true := by
  simpa [py_contains] using h

/-! Section: Lemmas on the dataset-preparation and harvest loops -/

theorem prepare_loop_doi (objs : List HSearch) :
    ∀ acc : List Record,
      prepare_loop HSearch.get_DOIDataset (some (.doi acc)) objs =
        some (.doi (acc ++ objs.flatMap HSearch.records)) := by
  induction objs with
  | nil => intro acc; simp [prepare_loop]
  | cons s rest ih =>
    intro acc
    show prepare_loop HSearch.get_DOIDataset
      (some ((Dataset.doi acc).extend_dataset s.get_DOIDataset)) rest = _
    rw [show (Dataset.doi acc).extend_dataset s.get_DOIDataset =
      .doi (acc ++ s.records) from rfl]
    rw [ih (acc ++ s.records)]
    simp [List.flatMap_cons, List.append_assoc]

theorem prepare_loop_ris (objs : List HSearch) :
    ∀ acc : List Record,
      prepare_loop HSearch.get_RISDataset (some (.ris acc)) objs =
        some (.ris (acc ++ objs.flatMap HSearch.records)) := by
  induction objs with
  | nil => intro acc; simp [prepare_loop]
  | cons s rest ih =>
    intro acc
    show prepare_loop HSearch.get_RISDataset
      (some ((Dataset.ris acc).extend_dataset s.get_RISDataset)) rest = _
    rw [show (Dataset.ris acc).extend_dataset s.get_RISDataset =
      .ris (acc ++ s.records) from rfl]
    rw [ih (acc ++ s.records)]
    simp [List.flatMap_cons, List.append_assoc]

theorem prepare_doi_eq (objs : List HSearch) (h : objs ≠ []) :
    prepare_handsearch_doi_dataset objs = some (.doi (objs.flatMap HSearch.records)) := by
  cases objs with
  | nil => exact absurd rfl h
  | cons s rest =>
    show prepare_loop HSearch.get_DOIDataset (some s.get_DOIDataset) rest = _
    rw [show s.get_DOIDataset = Dataset.doi s.records from rfl, prepare_loop_doi]
    simp [List.flatMap_cons]

theorem prepare_ris_eq (objs : List HSearch) (h : objs ≠ []) :
    prepare_handsearch_ris_dataset objs = some (.ris (objs.flatMap HSearch.records)) := by
  cases objs with
  | nil => exact absurd rfl h
  | cons s rest =>
    show prepare_loop HSearch.get_RISDataset (some s.get_RISDataset) rest = _
    rw [show s.get_RISDataset = Dataset.ris s.records from rfl, prepare_loop_ris]
    simp [List.flatMap_cons]

theorem prepare_nil_doi : prepare_handsearch_doi_dataset [] = none := rfl

theorem fetchLoop_search_objs (fetch : PyStr → Except PyStr (List Record))
    (l : List PyStr) :
    (fetchLoop fetch l).search_objs = l.filterMap (fun v =>
      match fetch (extract_issn v) with
      | .ok recs => some ⟨extract_issn v, recs⟩
      | .error _ => none) := by
  induction l with
  | nil => rfl
  | cons v rest ih =>
    unfold fetchLoop
    cases hf : fetch (extract_issn v) <;> simp [hf, ih, List.filterMap_cons]

theorem fetchLoop_requests (fetch : PyStr → Except PyStr (List Record))
    (l : List PyStr) :
    (fetchLoop fetch l).requests = l.map extract_issn := by
  induction l with
  | nil => rfl
  | cons v rest ih =>
    unfold fetchLoop
    cases hf : fetch (extract_issn v) <;> simp [hf, ih]

theorem estimateLoop_requests (dryRun : PyStr → Except PyStr Nat) (l : List PyStr) :
    (estimateLoop dryRun l).requests = l.map extract_issn := by
  induction l with
  | nil => rfl
  | cons v rest ih =>
    unfold estimateLoop
    cases hf : dryRun (extract_issn v) <;> simp [hf, ih]

theorem estimateLoop_expected (dryRun : PyStr → Except PyStr Nat) (l : List PyStr) :
    (estimateLoop dryRun l).expected = (l.map (fun v =>
      match dryRun (extract_issn v) with
      | .ok n => n
      | .error _ => 0)).sum := by
  induction l with
  | nil => rfl
  | cons v rest ih =>
    unfold estimateLoop
    cases hf : dryRun (extract_issn v) <;> simp [hf, ih]

/-! Section: Shape lemmas for the handsearch handler -/

theorem handsearchHandler_fetch_eq (dryRun : PyStr → Except PyStr Nat)
    (fetch : PyStr → Except PyStr (List Record)) (limit : Option Nat)
    (l : List PyStr) (kw s e : PyStr) (fmt : OutFormat)
    (hl : ¬ l.length = 0) (h1 : ¬ (estimateLoop dryRun l).expected < 1)
    (h2 : ∀ lim, limit = some lim → ¬ (estimateLoop dryRun l).expected > lim) :
    handsearchHandler dryRun fetch limit l kw s e fmt =
      .completed (fetchLoop fetch l).search_objs (fetchLoop fetch l).errors
        (results_for_format fmt (fetchLoop fetch l).search_objs)
        ((results_for_format fmt (fetchLoop fetch l).search_objs).map (fun ds =>
          { search_type := ("Handsearch".data), issns := l, startd := s, untild := e,
            keywords := report_keywords (parse_keywords kw),
            count := ds.records.length })) := by
  unfold handsearchHandler
  rw [if_neg hl]
  cases limit with
  | none =>
    dsimp only
    rw [if_neg h1]
  | some lim =>
    dsimp only
    rw [if_neg (h2 lim rfl), if_neg h1]

theorem handsearchHandler_ceiling_eq (dryRun : PyStr → Except PyStr Nat)
    (fetch : PyStr → Except PyStr (List Record)) (lim : Nat)
    (l : List PyStr) (kw s e : PyStr) (fmt : OutFormat)
    (hl : ¬ l.length = 0) (hgt : (estimateLoop dryRun l).expected > lim) :
    handsearchHandler dryRun fetch (some lim) l kw s e fmt =
      .ceilingError (estimateLoop dryRun l).expected lim := by
  unfold handsearchHandler
  rw [if_neg hl]
  dsimp only
  rw [if_pos hgt]

theorem handsearchHandler_zero_eq (dryRun : PyStr → Except PyStr Nat)
    (fetch : PyStr → Except PyStr (List Record)) (limit : Option Nat)
    (l : List PyStr) (kw s e : PyStr) (fmt : OutFormat)
    (hl : ¬ l.length = 0) (hz : (estimateLoop dryRun l).expected < 1)
    (h2 : ∀ lim, limit = some lim → ¬ (estimateLoop dryRun l).expected > lim) :
    handsearchHandler dryRun fetch limit l kw s e fmt = .noResultsError := by
  unfold handsearchHandler
  rw [if_neg hl]
  cases limit with
  | none =>
    dsimp only
    rw [if_pos hz]
  | some lim =>
    dsimp only
    rw [if_neg (h2 lim rfl), if_pos hz]

theorem handsearchHandler_noJournals_eq (dryRun : PyStr → Except PyStr Nat)
    (fetch : PyStr → Except PyStr (List Record)) (limit : Option Nat)
    (l : List PyStr) (kw s e : PyStr) (fmt : OutFormat)
    (hl : l.length = 0) :
    handsearchHandler dryRun fetch limit l kw s e fmt = .noJournals := by
  unfold handsearchHandler
  rw [if_pos hl]

/-- The report of the citation handler is always derived from its results
dataset by the format-string construction of lines 453-464. -/
theorem citationHandler_report_eq
    (cb cf : List PyStr → Except PyStr SnowballSearch) (t : SnowballType)
    (cfmt : OutFormat) (txt : PyStr) :
    (citationHandler cb cf t cfmt txt).report =
      ((citationHandler cb cf t cfmt txt).results).map (fun ds =>
        { type_desc := snowball_type_desc t, dois := parse_dois txt,
          count := ds.records.length }) := by
  unfold citationHandler
  cases t with
  | backward => cases hcb : cb (parse_dois txt) <;> rfl
  | forward => cases hcf : cf (parse_dois txt) <;> rfl

/-! Section: Lemmas on the spec-modelled chase -/

theorem snowball_chase_mem_records (resolve : PyStr → Except PyStr (List Record))
    (seeds : List PyStr) (seed : PyStr) (hs : seed ∈ seeds)
    (rs : List Record) (hok : resolve seed = .ok rs) (r : Record) (hr : r ∈ rs) :
    r ∈ (snowball_chase resolve seeds).records := by
  unfold snowball_chase
  refine List.mem_flatMap.mpr ⟨seed, hs, ?_⟩
  rw [hok]
  exact hr

theorem snowball_chase_mem_errors (resolve : PyStr → Except PyStr (List Record))
    (seeds : List PyStr) (seed : PyStr) (hs : seed ∈ seeds)
    (e : PyStr) (he : resolve seed = .error e) :
    (seed, e) ∈ (snowball_chase resolve seeds).seed_errors := by
  unfold snowball_chase
  refine List.mem_filterMap.mpr ⟨seed, hs, ?_⟩
  rw [he]

theorem estimateLoop_expected_of_ok (dryRun : PyStr → Except PyStr Nat)
    (estOf : PyStr → Nat) :
    ∀ l : List PyStr,
      (∀ v ∈ l, dryRun (extract_issn v) = .ok (estOf (extract_issn v))) →
      (estimateLoop dryRun l).expected =
        (l.map (fun v => estOf (extract_issn v))).sum := by
  intro l
  induction l with
  | nil => intro _; rfl
  | cons v rest ih =>
    intro h
    have hv := h v (List.mem_cons_self v rest)
    have hrest := fun w hw => h w (List.mem_cons_of_mem v hw)
    unfold estimateLoop
    dsimp only
    rw [hv]
    simp [ih hrest]

/-! Section: Claim theorems -/

/-- C3.  In a multi-container handsearch fetch, a per-container failure
never aborts the sibling containers: the loop outcome is exactly the
filtered list of the containers whose fetch succeeded, in submission
order, and every record of every successful container is present in the
final prepared Dataset, whatever the other containers did. -/
theorem container_failure_isolation (fetch : PyStr → Except PyStr (List Record))
    (l : List PyStr) :
    ((fetchLoop fetch l).search_objs = l.filterMap (fun v =>
        match fetch (extract_issn v) with
        | .ok recs => some ⟨extract_issn v, recs⟩
        | .error _ => none))
    ∧ (∀ v ∈ l, ∀ recs, fetch (extract_issn v) = .ok recs → ∀ r ∈ recs,
        ∃ d, prepare_handsearch_doi_dataset (fetchLoop fetch l).search_objs = some d ∧
          r ∈ d.records) := by
  refine ⟨fetchLoop_search_objs fetch l, ?_⟩
  intro v hv recs hok r hr
  have hobj : (⟨extract_issn v, recs⟩ : HSearch) ∈ (fetchLoop fetch l).search_objs := by
    rw [fetchLoop_search_objs]
    exact List.mem_filterMap.mpr ⟨v, hv, by rw [hok]⟩
  have hne : (fetchLoop fetch l).search_objs ≠ [] := by
    intro h0
    rw [h0] at hobj
    exact absurd hobj (List.not_mem_nil _)
  refine ⟨_, prepare_doi_eq _ hne, ?_⟩
  show r ∈ (Dataset.doi _).records
  exact List.mem_flatMap.mpr ⟨⟨extract_issn v, recs⟩, hobj, hr⟩

/-- Witness for C3: with the middle of three containers failing, a record
of the first container is still in the final dataset. -/
theorem container_failure_isolation_witness :
    ∃ d, prepare_handsearch_doi_dataset
        ((fetchLoop
          (fun issn => if issn = ("22222222".data) then Except.error ("boom".data)
            else Except.ok [⟨("rec-".data) ++ issn⟩])
          [("11111111".data), ("22222222".data), ("33333333".data)]).search_objs) = some d ∧
      (⟨("rec-11111111".data)⟩ : Record) ∈ d.records := by
  exact (container_failure_isolation
    (fun issn => if issn = ("22222222".data) then Except.error ("boom".data)
      else Except.ok [⟨("rec-".data) ++ issn⟩])
    [("11111111".data), ("22222222".data), ("33333333".data)]).2
    ("11111111".data) (by decide) [⟨("rec-11111111".data)⟩] (by decide)
    ⟨("rec-11111111".data)⟩ (by decide)

/-- C5.  During the estimating phase of a handsearch, exactly one dry-run
estimate request is issued per selected container, in submission order,
and when every estimate resolves the summed expected size equals the sum
of the per-container estimates. -/
theorem estimate_one_request_per_container (dryRun : PyStr → Except PyStr Nat)
    (estOf : PyStr → Nat) (l : List PyStr)
    (h : ∀ v ∈ l, dryRun (extract_issn v) = .ok (estOf (extract_issn v))) :
    (estimateLoop dryRun l).requests = l.map extract_issn
    ∧ (estimateLoop dryRun l).expected =
        (l.map (fun v => estOf (extract_issn v))).sum :=
  ⟨estimateLoop_requests dryRun l, estimateLoop_expected_of_ok dryRun estOf l h⟩

/-- Witness for C5: two containers, estimates 3 and 4, one request each
and expected size 7. -/
theorem estimate_one_request_per_container_witness :
    (estimateLoop (fun issn => Except.ok issn.length)
        [("123".data), ("Journal, ISSN:4567".data)]).requests =
      [("123".data), ("ISSN:4567".data)]
    ∧ (estimateLoop (fun issn => Except.ok issn.length)
        [("123".data), ("Journal, ISSN:4567".data)]).expected = 12 := by
  have h := estimate_one_request_per_container (fun issn => Except.ok issn.length)
    List.length [("123".data), ("Journal, ISSN:4567".data)] (by decide)
  exact ⟨by rw [h.1]; decide, by rw [h.2]; decide⟩

/-- C6.  Aggregating per-unit datasets through `extend_dataset` appends
each later unit after the accumulated ones: for a non-empty list of
search objects the prepared dataset, in either format, is exactly the
concatenation of the record lists of the units in submission order, with no
deduplication; and one `extend_dataset` step is exactly record-list
concatenation. -/
theorem extend_dataset_order (objs : List HSearch) (h : objs ≠ []) :
    prepare_handsearch_doi_dataset objs =
      some (.doi (objs.flatMap HSearch.records))
    ∧ prepare_handsearch_ris_dataset objs =
      some (.ris (objs.flatMap HSearch.records))
    ∧ (∀ d d' : Dataset, (d.extend_dataset d').records = d.records ++ d'.records) := by
  refine ⟨prepare_doi_eq objs h, prepare_ris_eq objs h, ?_⟩
  intro d d'
  cases d <;> cases d' <;> rfl

/-- Witness for C6: two units with a duplicated record across them; the
aggregate keeps both copies, in submission order. -/
theorem extend_dataset_order_witness :
    prepare_handsearch_doi_dataset
      [⟨("1".data), [⟨("a".data)⟩, ⟨("b".data)⟩]⟩, ⟨("2".data), [⟨("a".data)⟩]⟩] =
      some (.doi [⟨("a".data)⟩, ⟨("b".data)⟩, ⟨("a".data)⟩]) := by
  have h := (extend_dataset_order
    [⟨("1".data), [⟨("a".data)⟩, ⟨("b".data)⟩]⟩, ⟨("2".data), [⟨("a".data)⟩]⟩]
    (by decide)).1
  rw [h]
  decide

/-- C1 counterexample.  With a configured ceiling of 100 and a summed
estimate of 0, the estimate does not exceed the ceiling, yet the session
terminates in the zero-estimate error branch and fetching does not begin
— refuting "fetching begins if and only if the summed estimate does not
exceed the ceiling". -/
theorem ceiling_iff_counterexample :
    (estimateLoop (fun _ => Except.ok 0) [("12345678".data)]).expected ≤ 100
    ∧ (handsearchHandler (fun _ => Except.ok 0) (fun _ => Except.ok [])
        (some 100) [("12345678".data)] [] ("2020-01-01".data) ("2020-12-31".data)
        OutFormat.doiTxt).startedFetching = false
    ∧ handsearchHandler (fun _ => Except.ok 0) (fun _ => Except.ok [])
        (some 100) [("12345678".data)] [] ("2020-01-01".data) ("2020-12-31".data)
        OutFormat.doiTxt = HandsearchOutcome.noResultsError := by
  refine ⟨by decide, by decide, by decide⟩

/-- C1 amended.  For a non-empty selection, fetching begins if and only
if the summed estimate is at least one and, when a ceiling is configured,
does not exceed it (the comparison is strict, so an estimate equal to the
ceiling proceeds); an estimate strictly greater than the ceiling
terminates the session in the ceiling outcome, which reports the would-be
count and the ceiling and is reached for every fetch oracle alike —
before any fetch request. -/
theorem ceiling_gate_amended (dryRun : PyStr → Except PyStr Nat)
    (fetch : PyStr → Except PyStr (List Record)) (limit : Option Nat)
    (l : List PyStr) (kw s e : PyStr) (fmt : OutFormat) (hl : l ≠ []) :
    ((handsearchHandler dryRun fetch limit l kw s e fmt).startedFetching = true ↔
      (1 ≤ (estimateLoop dryRun l).expected ∧
        ∀ lim, limit = some lim → (estimateLoop dryRun l).expected ≤ lim))
    ∧ (∀ lim, limit = some lim → lim < (estimateLoop dryRun l).expected →
        ∀ fetch2 : PyStr → Except PyStr (List Record),
          handsearchHandler dryRun fetch2 limit l kw s e fmt =
            .ceilingError (estimateLoop dryRun l).expected lim) := by
  have hlen : ¬ l.length = 0 := by simpa [List.length_eq_zero] using hl
  constructor
  · constructor
    · intro hsf
      by_cases h1 : (estimateLoop dryRun l).expected < 1
      · exfalso
        have h2 : ∀ lim, limit = some lim →
            ¬ (estimateLoop dryRun l).expected > lim := by
          intro lim _
          omega
        rw [handsearchHandler_zero_eq dryRun fetch limit l kw s e fmt hlen h1 h2] at hsf
        simp [HandsearchOutcome.startedFetching] at hsf
      · cases limit with
        | none => exact ⟨by omega, by intro lim hlim; cases hlim⟩
        | some lim =>
          by_cases hgt : (estimateLoop dryRun l).expected > lim
          · exfalso
            rw [handsearchHandler_ceiling_eq dryRun fetch lim l kw s e fmt hlen hgt] at hsf
            simp [HandsearchOutcome.startedFetching] at hsf
          · refine ⟨by omega, ?_⟩
            intro lim' hlim'
            cases hlim'
            omega
    · rintro ⟨h1, h2⟩
      rw [handsearchHandler_fetch_eq dryRun fetch limit l kw s e fmt hlen (by omega)
        (fun lim hlim => by have := h2 lim hlim; omega)]
      rfl
  · intro lim hlim hgt fetch2
    subst hlim
    exact handsearchHandler_ceiling_eq dryRun fetch2 lim l kw s e fmt hlen (by omega)

/-- Witness for C1 amended: estimate 5 with ceiling exactly 5 proceeds to
fetching. -/
theorem ceiling_gate_amended_witness :
    (handsearchHandler (fun _ => Except.ok 5) (fun _ => Except.ok [])
      (some 5) [("12345678".data)] [] ("2020-01-01".data) ("2020-12-31".data)
      OutFormat.doiTxt).startedFetching = true := by
  refine ((ceiling_gate_amended (fun _ => Except.ok 5) (fun _ => Except.ok [])
    (some 5) [("12345678".data)] [] ("2020-01-01".data) ("2020-12-31".data)
    OutFormat.doiTxt (by decide)).1).mpr ⟨by decide, ?_⟩
  intro lim hlim
  cases hlim
  decide

/-- C4 counterexample.  With a zero estimate the handler lands in the
plain error branch: no fetch, no stored dataset, no completed outcome —
refuting "the session completes with an explicitly empty Dataset". -/
theorem zero_estimate_counterexample :
    handsearchHandler (fun _ => Except.ok 0) (fun _ => Except.ok []) none
      [("12345678".data)] [] ("2020-01-01".data) ("2020-12-31".data)
      OutFormat.doiTxt = HandsearchOutcome.noResultsError
    ∧ (handsearchHandler (fun _ => Except.ok 0) (fun _ => Except.ok []) none
      [("12345678".data)] [] ("2020-01-01".data) ("2020-12-31".data)
      OutFormat.doiTxt).resultsOf = none
    ∧ (handsearchHandler (fun _ => Except.ok 0) (fun _ => Except.ok []) none
      [("12345678".data)] [] ("2020-01-01".data) ("2020-12-31".data)
      OutFormat.doiTxt).startedFetching = false := by
  refine ⟨by decide, by decide, by decide⟩

/-- C4 amended.  When the summed pre-flight estimate is zero (and
journals were selected), the session terminates before fetching in a
distinct zero-estimate error outcome — it is reported, not silently an
empty success — but no Dataset, empty or otherwise, is produced and the
outcome is the same for every fetch oracle. -/
theorem zero_estimate_terminates (dryRun : PyStr → Except PyStr Nat)
    (limit : Option Nat) (l : List PyStr) (kw s e : PyStr) (fmt : OutFormat)
    (hl : l ≠ []) (hz : (estimateLoop dryRun l).expected = 0) :
    ∀ fetch : PyStr → Except PyStr (List Record),
      handsearchHandler dryRun fetch limit l kw s e fmt =
        HandsearchOutcome.noResultsError
      ∧ (handsearchHandler dryRun fetch limit l kw s e fmt).resultsOf = none
      ∧ (handsearchHandler dryRun fetch limit l kw s e fmt).startedFetching = false := by
  intro fetch
  have hlen : ¬ l.length = 0 := by simpa [List.length_eq_zero] using hl
  have heq := handsearchHandler_zero_eq dryRun fetch limit l kw s e fmt hlen
    (by omega) (fun lim _ => by omega)
  exact ⟨heq, by rw [heq]; rfl, by rw [heq]; rfl⟩

/-- Witness for C4 amended at a concrete zero-estimate run. -/
theorem zero_estimate_terminates_witness :
    handsearchHandler (fun _ => Except.ok 0) (fun _ => Except.ok [])
      (some 100) [("12345678".data)] [] ("s".data) ("u".data) OutFormat.ris =
      HandsearchOutcome.noResultsError
    ∧ (handsearchHandler (fun _ => Except.ok 0) (fun _ => Except.ok [])
      (some 100) [("12345678".data)] [] ("s".data) ("u".data) OutFormat.ris).resultsOf = none
    ∧ (handsearchHandler (fun _ => Except.ok 0) (fun _ => Except.ok [])
      (some 100) [("12345678".data)] [] ("s".data) ("u".data)
      OutFormat.ris).startedFetching = false :=
  zero_estimate_terminates (fun _ => Except.ok 0) (some 100) [("12345678".data)]
    [] ("s".data) ("u".data) OutFormat.ris (by decide) (by decide)
    (fun _ => Except.ok [])

/-- C7.  Every search that stored a results dataset produces a run
summary whose fields are the search type, the searched criteria
(handsearch: the selected journal entries, the date range and the
keyword line) or the seed DOI list (citation search), and a final count
equal to the length of the stored results dataset. -/
theorem run_summary_fields
    (dryRun : PyStr → Except PyStr Nat) (fetch : PyStr → Except PyStr (List Record))
    (limit : Option Nat) (l : List PyStr) (kw s e : PyStr) (fmt : OutFormat)
    (cb cf : List PyStr → Except PyStr SnowballSearch) (t : SnowballType)
    (cfmt : OutFormat) (txt : PyStr) :
    (∀ ds, (handsearchHandler dryRun fetch limit l kw s e fmt).resultsOf = some ds →
      (handsearchHandler dryRun fetch limit l kw s e fmt).reportOf =
        some { search_type := ("Handsearch".data), issns := l, startd := s,
               untild := e, keywords := report_keywords (parse_keywords kw),
               count := ds.records.length })
    ∧ (∀ ds, (citationHandler cb cf t cfmt txt).results = some ds →
        (citationHandler cb cf t cfmt txt).report =
          some { type_desc := snowball_type_desc t, dois := parse_dois txt,
                 count := ds.records.length }) := by
  constructor
  · intro ds hds
    by_cases hlen : l.length = 0
    · rw [handsearchHandler_noJournals_eq dryRun fetch limit l kw s e fmt hlen] at hds
      cases hds
    · by_cases hceil : ∃ lim, limit = some lim ∧ (estimateLoop dryRun l).expected > lim
      · obtain ⟨lim, hlim, hgt⟩ := hceil
        subst hlim
        rw [handsearchHandler_ceiling_eq dryRun fetch lim l kw s e fmt hlen hgt] at hds
        cases hds
      · have h2 : ∀ lim, limit = some lim → ¬ (estimateLoop dryRun l).expected > lim :=
          fun lim hlim hgt => hceil ⟨lim, hlim, hgt⟩
        by_cases h1 : (estimateLoop dryRun l).expected < 1
        · rw [handsearchHandler_zero_eq dryRun fetch limit l kw s e fmt hlen h1 h2] at hds
          cases hds
        · rw [handsearchHandler_fetch_eq dryRun fetch limit l kw s e fmt hlen h1 h2] at hds ⊢
          simp only [HandsearchOutcome.resultsOf] at hds
          simp only [HandsearchOutcome.reportOf, hds]
          rfl
  · intro ds hds
    rw [citationHandler_report_eq cb cf t cfmt txt, hds]
    rfl

/-- Witness for C7: one container fetching two records yields a report
counting two records; one citation seed yielding one record reports one. -/
theorem run_summary_fields_witness :
    (handsearchHandler (fun _ => Except.ok 2)
        (fun _ => Except.ok [⟨("d1".data)⟩, ⟨("d2".data)⟩]) none
        [("12345678".data)] [] ("2020-01-01".data) ("2020-12-31".data)
        OutFormat.doiTxt).reportOf =
      some { search_type := ("Handsearch".data), issns := [("12345678".data)],
             startd := ("2020-01-01".data), untild := ("2020-12-31".data),
             keywords := report_keywords (parse_keywords []),
             count := (Dataset.doi [⟨("d1".data)⟩, ⟨("d2".data)⟩]).records.length }
    ∧ (citationHandler (fun seeds => Except.ok (snowball_chase (fun _ => Except.ok [⟨("r1".data)⟩]) seeds))
        (fun seeds => Except.ok (snowball_chase (fun _ => Except.ok [⟨("r1".data)⟩]) seeds))
        SnowballType.backward OutFormat.doiTxt ("10.1/a".data)).report =
      some { type_desc := snowball_type_desc SnowballType.backward,
             dois := parse_dois ("10.1/a".data),
             count := (Dataset.doi [⟨("r1".data)⟩]).records.length } := by
  constructor
  · exact (run_summary_fields (fun _ => Except.ok 2)
      (fun _ => Except.ok [⟨("d1".data)⟩, ⟨("d2".data)⟩]) none
      [("12345678".data)] [] ("2020-01-01".data) ("2020-12-31".data) OutFormat.doiTxt
      (fun _ => Except.error []) (fun _ => Except.error []) SnowballType.backward
      OutFormat.doiTxt []).1 (Dataset.doi [⟨("d1".data)⟩, ⟨("d2".data)⟩]) (by decide)
  · exact (run_summary_fields (fun _ => Except.ok 2)
      (fun _ => Except.ok [⟨("d1".data)⟩, ⟨("d2".data)⟩]) none
      [("12345678".data)] [] ("2020-01-01".data) ("2020-12-31".data) OutFormat.doiTxt
      (fun seeds => Except.ok (snowball_chase (fun _ => Except.ok [⟨("r1".data)⟩]) seeds))
      (fun seeds => Except.ok (snowball_chase (fun _ => Except.ok [⟨("r1".data)⟩]) seeds))
      SnowballType.backward OutFormat.doiTxt ("10.1/a".data)).2
      (Dataset.doi [⟨("r1".data)⟩]) (by decide)

/-- C2.  In a citation chase run against the spec-modelled per-seed
library loop, a failing seed never aborts the session: the handler shows
no session-level error, it stores a partial Dataset whose records are
exactly those harvested from the resolvable seeds in seed order, every
record of every resolvable seed is in that Dataset, and every failing
seed is recorded with its error in the per-seed error list of the stored
search object. -/
theorem seed_failure_isolation (resolve : PyStr → Except PyStr (List Record))
    (t : SnowballType) (fmt : OutFormat) (txt : PyStr) :
    (citation_handler_spec_chase resolve t fmt txt).errors = []
    ∧ ∃ d, (citation_handler_spec_chase resolve t fmt txt).results = some d
        ∧ d.records = (parse_dois txt).flatMap (fun sd =>
            match resolve sd with
            | .ok rs => rs
            | .error _ => [])
        ∧ (∀ seed ∈ parse_dois txt, ∀ rs, resolve seed = .ok rs →
            ∀ r ∈ rs, r ∈ d.records)
        ∧ (∀ seed ∈ parse_dois txt, ∀ e, resolve seed = .error e →
            (seed, e) ∈ ((citation_handler_spec_chase resolve t fmt txt).search_objs.flatMap
              SnowballSearch.seed_errors)) := by
  cases t <;> cases fmt <;>
    exact ⟨rfl, _, rfl, rfl,
      fun seed hs rs hok r hr =>
        snowball_chase_mem_records resolve (parse_dois txt) seed hs rs hok r hr,
      fun seed hs e he =>
        List.mem_flatMap.mpr ⟨snowball_chase resolve (parse_dois txt),
          List.mem_singleton_self _,
          snowball_chase_mem_errors resolve (parse_dois txt) seed hs e he⟩⟩

/-- Witness for C2: seed b fails, seed a resolves; the partial dataset
still holds the record of a and the error list names b. -/
theorem seed_failure_isolation_witness :
    ∃ d, (citation_handler_spec_chase
        (fun sd => if sd = ("10.1/b".data) then Except.error ("boom".data)
          else Except.ok [⟨("ref-".data) ++ sd⟩])
        SnowballType.backward OutFormat.doiTxt ("10.1/a,10.1/b".data)).results = some d
      ∧ (⟨("ref-10.1/a".data)⟩ : Record) ∈ d.records
      ∧ (("10.1/b".data), ("boom".data)) ∈
          ((citation_handler_spec_chase
            (fun sd => if sd = ("10.1/b".data) then Except.error ("boom".data)
              else Except.ok [⟨("ref-".data) ++ sd⟩])
            SnowballType.backward OutFormat.doiTxt ("10.1/a,10.1/b".data)).search_objs.flatMap
            SnowballSearch.seed_errors) := by
  obtain ⟨-, d, hres, -, hmem, herr⟩ := seed_failure_isolation
    (fun sd => if sd = ("10.1/b".data) then Except.error ("boom".data)
      else Except.ok [⟨("ref-".data) ++ sd⟩])
    SnowballType.backward OutFormat.doiTxt ("10.1/a,10.1/b".data)
  refine ⟨d, hres, ?_, ?_⟩
  · exact hmem ("10.1/a".data) (by decide) [⟨("ref-10.1/a".data)⟩] (by decide)
      ⟨("ref-10.1/a".data)⟩ (by decide)
  · exact herr ("10.1/b".data) (by decide) ("boom".data) (by decide)

/-- C10.  When the citation-search DOI text area holds no comma, the
submitted seed list is the single-element list holding the raw,
unstripped text; in particular an empty text area yields the seed set
consisting of the empty string alone, and the handler still starts the
chase with that seed set instead of rejecting it. -/
theorem doi_parse_no_comma (s : PyStr)
    (resolve : PyStr → Except PyStr (List Record)) (t : SnowballType)
    (fmt : OutFormat) (h : py_contains s ',' = false) :
    parse_dois s = [s]
    ∧ parse_dois [] = [[]]
    ∧ (citation_handler_spec_chase resolve t fmt []).search_objs =
        [snowball_chase resolve [[]]]
    ∧ (snowball_chase resolve [[]]).seeds = [[]] := by
  refine ⟨?_, rfl, ?_, rfl⟩
  · unfold parse_dois
    rw [if_neg (by simp [h])]
  · cases t <;> rfl

/-- Witness for C10: a DOI with surrounding whitespace and no comma is
submitted raw. -/
theorem doi_parse_no_comma_witness :
    parse_dois ((" 10.1000/xyz ".data)) = [(" 10.1000/xyz ".data)]
    ∧ parse_dois [] = [[]]
    ∧ (citation_handler_spec_chase (fun _ => Except.ok []) SnowballType.forward
        OutFormat.ris []).search_objs =
      [snowball_chase (fun _ => Except.ok []) [[]]]
    ∧ (snowball_chase (fun _ => Except.ok []) [[]]).seeds = [[]] :=
  doi_parse_no_comma (" 10.1000/xyz ".data) (fun _ => Except.ok [])
    SnowballType.forward OutFormat.ris (by decide)

/-- C8.  When the selected output format does not match the stored
results dataset (so its serialization method raises), the display
section rebuilds the dataset in the requested format purely from the
stored search objects, overwrites the stored results with the rebuilt
dataset, and serializes the rebuilt dataset; `displayResults` takes no
remote oracle, so no new remote search can be started by the
conversion.  All four mismatch cases (handsearch or citation state,
either target format) are covered. -/
theorem format_conversion_rebuilds (objs : List HSearch) (sb : SnowballSearch)
    (rs rs' : List Record) (h : objs ≠ []) :
    displayResults (.handsearch objs) (.ris rs) .doiTxt =
      some ⟨.doi (objs.flatMap HSearch.records),
            List.intercalate ("\n".data) ((objs.flatMap HSearch.records).map Record.id)⟩
    ∧ displayResults (.handsearch objs) (.doi rs') .ris =
      some ⟨.ris (objs.flatMap HSearch.records),
            List.intercalate ("\n\n".data) ((objs.flatMap HSearch.records).map
              (fun r => ("DO  - ".data) ++ r.id ++ ("\nER  - ".data)))⟩
    ∧ displayResults (.citation [sb]) (.ris rs) .doiTxt =
      some ⟨.doi sb.records,
            List.intercalate ("\n".data) (sb.records.map Record.id)⟩
    ∧ displayResults (.citation [sb]) (.doi rs') .ris =
      some ⟨.ris sb.records,
            List.intercalate ("\n\n".data) (sb.records.map
              (fun r => ("DO  - ".data) ++ r.id ++ ("\nER  - ".data)))⟩ := by
  refine ⟨?_, ?_, rfl, rfl⟩
  · unfold displayResults
    rw [show (Dataset.ris rs).to_txt_string = none from rfl]
    dsimp only
    rw [prepare_doi_eq objs h]
    rfl
  · unfold displayResults
    rw [show (Dataset.doi rs').to_ris_string = none from rfl]
    dsimp only
    rw [prepare_ris_eq objs h]
    rfl

/-- Witness for C8: a stored RIS dataset with the DOI text format
selected is rebuilt from one stored handsearch object and serialized as
the identifier list. -/
theorem format_conversion_rebuilds_witness :
    displayResults (.handsearch [⟨("11111111".data), [⟨("10.1/x".data)⟩]⟩])
        (.ris [⟨("old".data)⟩]) .doiTxt =
      some ⟨.doi (([⟨("11111111".data), [⟨("10.1/x".data)⟩]⟩] : List HSearch).flatMap
              HSearch.records),
            List.intercalate ("\n".data)
              ((([⟨("11111111".data), [⟨("10.1/x".data)⟩]⟩] : List HSearch).flatMap
                HSearch.records).map Record.id)⟩ :=
  (format_conversion_rebuilds [⟨("11111111".data), [⟨("10.1/x".data)⟩]⟩]
    ⟨[], [], []⟩ [⟨("old".data)⟩] [] (by decide)).1

/-- C9 counterexample.  For a drop-down entry whose journal title itself
contains a comma, the submitted identifier is the fragment between the
first and second commas, not the whitespace-stripped text after the
first comma claimed by C9. -/
theorem issn_second_field_counterexample :
    extract_issn (journal_entry ("Cell, Host and Microbe".data) ("19313128".data)) =
      ("Host and Microbe".data)
    ∧ extract_issn (journal_entry ("Cell, Host and Microbe".data) ("19313128".data)) ≠
      py_strip (after_first_comma
        (journal_entry ("Cell, Host and Microbe".data) ("19313128".data))) := by
  refine ⟨by decide, by decide⟩

/-- C9 amended.  For every entry of the selected-journals list, the
identifier submitted to both the estimate loop and the fetch loop is the
result of the same extraction: the whole entry when it holds no comma,
and otherwise the whitespace-stripped fragment between the first and the
second comma.  For a drop-down journal whose title and eISSN are
comma-free the submitted identifier is the string `ISSN:eissn` with its
`ISSN:` prefix, and a title that itself holds a comma yields a stripped
fragment of the title instead of the ISSN. -/
theorem issn_extraction_amended
    (dryRun : PyStr → Except PyStr Nat) (fetch : PyStr → Except PyStr (List Record))
    (l : List PyStr) (v v2 title t1 t2 eissn : PyStr)
    (hv : py_contains v ',' = false)
    (hv2 : py_contains v2 ',' = true)
    (ht : (',' : Char) ∉ title) (he : (',' : Char) ∉ eissn)
    (hw : eissn.reverse.dropWhile Char.isWhitespace = eissn.reverse)
    (ht1 : (',' : Char) ∉ t1) (ht2 : (',' : Char) ∉ t2) :
    (estimateLoop dryRun l).requests = l.map extract_issn
    ∧ (fetchLoop fetch l).requests = l.map extract_issn
    ∧ extract_issn v = v
    ∧ extract_issn v2 =
        py_strip ((after_first_comma v2).takeWhile (fun c => c != ','))
    ∧ extract_issn (journal_entry title eissn) = ("ISSN:".data) ++ eissn
    ∧ extract_issn (journal_entry (t1 ++ (",".data) ++ t2) eissn) = py_strip t2 := by
  have hrest : (',' : Char) ∉ ((" ISSN:".data) ++ eissn) := by
    intro m
    rcases List.mem_append.mp m with h1 | h2
    · revert h1; decide
    · exact he h2
  refine ⟨estimateLoop_requests dryRun l, fetchLoop_requests fetch l, ?_, ?_, ?_, ?_⟩
  · unfold extract_issn
    rw [if_neg (by simp [hv])]
  · exact extract_issn_second_field v2 hv2
  · have hmem : (',' : Char) ∈ journal_entry title eissn := by
      unfold journal_entry
      rw [List.append_assoc]
      exact List.mem_append_right title (List.mem_append_left eissn (by decide))
    rw [extract_issn_second_field _ (py_contains_of_mem hmem)]
    have hform : journal_entry title eissn =
        title ++ (',' :: ((" ISSN:".data) ++ eissn)) := by
      unfold journal_entry
      rw [List.append_assoc]
      rfl
    rw [hform]
    unfold after_first_comma
    rw [dropWhile_bne_append ht]
    rw [show (',' :: ((" ISSN:".data) ++ eissn)).drop 1 = (" ISSN:".data) ++ eissn from rfl]
    rw [takeWhile_bne_all hrest]
    exact py_strip_issn_tag eissn hw
  · have hform : journal_entry (t1 ++ (",".data) ++ t2) eissn =
        t1 ++ (',' :: (t2 ++ (',' :: ((" ISSN:".data) ++ eissn)))) := by
      unfold journal_entry
      simp [List.append_assoc]
    have hmem : (',' : Char) ∈ journal_entry (t1 ++ (",".data) ++ t2) eissn := by
      rw [hform]
      exact List.mem_append_right t1 (List.mem_cons_self _ _)
    rw [extract_issn_second_field _ (py_contains_of_mem hmem)]
    rw [hform]
    unfold after_first_comma
    rw [dropWhile_bne_append ht1]
    rw [show (',' :: (t2 ++ (',' :: ((" ISSN:".data) ++ eissn)))).drop 1 =
      t2 ++ (',' :: ((" ISSN:".data) ++ eissn)) from rfl]
    rw [takeWhile_bne_append ht2]

/-- Witness for C9 amended at concrete entries: a bare ISSN, a generic
comma-holding entry, a comma-free title, and a title with a comma. -/
theorem issn_extraction_amended_witness :
    (estimateLoop (fun _ => Except.ok 1) [("12345678".data)]).requests =
      [("12345678".data)].map extract_issn
    ∧ (fetchLoop (fun _ => Except.ok []) [("12345678".data)]).requests =
      [("12345678".data)].map extract_issn
    ∧ extract_issn ("12345678".data) = ("12345678".data)
    ∧ extract_issn ("Nature, ISSN:14764687".data) =
        py_strip ((after_first_comma ("Nature, ISSN:14764687".data)).takeWhile
          (fun c => c != ','))
    ∧ extract_issn (journal_entry ("Nature".data) ("14764687".data)) =
        ("ISSN:".data) ++ ("14764687".data)
    ∧ extract_issn (journal_entry (("Cell".data) ++ (",".data) ++ (" Host".data))
        ("14764687".data)) = py_strip (" Host".data) :=
  issn_extraction_amended (fun _ => Except.ok 1) (fun _ => Except.ok [])
    [("12345678".data)] ("12345678".data) ("Nature, ISSN:14764687".data)
    ("Nature".data) ("Cell".data) (" Host".data) ("14764687".data)
    (by decide) (by decide) (by decide) (by decide) (by decide) (by decide) (by decide)

